import Mathlib

/-!
Shallow embedding of `mindarmour/diff_privacy/train/model.py`.

Tensors are modelled as flat lists of rationals, a batch as a list of rows
(axis 0), and a gradient tuple as a list of tensors (one per trainable
parameter).  Framework primitives that live outside this repository
(`GradOperation`, `nn.ClipByNorm`, `DistributedGradReducer`, the NPU/GPU
float-status operators, `AllReduce`, the loss-scale update cell) are
uninterpreted functions collected in `DpEnv`; everything that the
repository's own code computes is translated line by line from the source.
Device-side effects (the NPU status buffer, the call to the optimizer) are
reflected as fields of an explicit output record, and calls of
`self.network` are collected into a trace list in call order.
-/

abbrev Tensor : Type := List ℚ

abbrev Batch : Type := List (List ℚ)

abbrev GradTuple : Type := List Tensor

/-- `context.get_context("device_target")`. -/
inductive DeviceTarget
  | Ascend
  | GPU
  | CPU
deriving DecidableEq

/-- `mindspore.train.model.ParallelMode`. -/
inductive ParallelMode
  | STAND_ALONE
  | DATA_PARALLEL
  | HYBRID_PARALLEL
  | SEMI_AUTO_PARALLEL
  | AUTO_PARALLEL
deriving DecidableEq

/-- `GRADIENT_CLIP_TYPE = 1` (model.py line 52). -/
def GRADIENT_CLIP_TYPE : ℕ := 1

/-- `P.Reciprocal()` on a scalar tensor. -/
def reciprocal (x : ℚ) : ℚ := x⁻¹

/-- `tensor_grad_scale(scale, grad) = grad * reciprocal(scale)` (lines 57-59),
applied elementwise to the tensor `grad`. -/
def tensor_grad_scale (scale : ℚ) (grad : Tensor) : Tensor :=
  grad.map (fun g => g * reciprocal scale)

/-- `P.Fill()(dtype(loss), shape(loss), v)`: a tensor shaped like `t` filled
with `v`. -/
def fillTensor (t : Tensor) (v : ℚ) : Tensor := t.map (fun _ => v)

/-- `C.ones_like(loss)`. -/
def onesLike (t : Tensor) : Tensor := t.map (fun _ => 1)

/-- `C.ones_like(loss) * F.cast(scaling_sens, F.dtype(loss))`: elementwise
product of the all-ones tensor with the scalar `s`. -/
def onesTimes (t : Tensor) (s : ℚ) : Tensor := (onesLike t).map (fun x => x * s)

/-- Helper for `P.Split(0, m)`: cut off `n` chunks of `k` rows each. -/
def splitChunks (k : ℕ) : ℕ → Batch → List Batch
  | 0, _ => []
  | n + 1, xs => xs.take k :: splitChunks k n (xs.drop k)

/-- `P.Split(0, m)`: split a batch along axis 0 into `m` equally sized
sub-batches. -/
def splitOp (m : ℕ) (xs : Batch) : List Batch :=
  splitChunks (xs.length / m) m xs

/-- `C.clip_by_value(grad, -clip_value, clip_value)`: elementwise clamp. -/
def clip_by_value (grad : Tensor) (lo hi : ℚ) : Tensor :=
  grad.map (fun x => max lo (min hi x))

/-- `_ClipGradients.construct(grads, clip_type, clip_value)` (lines 242-258).
`clip_by_norm` is the uninterpreted framework operator `nn.ClipByNorm()`;
the loop `for grad in grads: new_grads = new_grads + (t,)` is the fold. -/
def ClipGradients.construct (clip_by_norm : Tensor → ℚ → Tensor)
    (grads : GradTuple) (clip_type : ℕ) (clip_value : ℚ) : GradTuple :=
  if clip_type ≠ 0 ∧ clip_type ≠ 1 then grads
  else
    grads.foldl
      (fun new_grads grad =>
        new_grads ++
          [if clip_type = 0 then clip_by_value grad (-clip_value) clip_value
           else clip_by_norm grad clip_value]) []

/-- Uninterpreted framework components that the training cells call into.
`network` is the loss network, `gradFn d l s` is
`self.grad(self.network, weights)(d, l, s)`, `makeGradReducer` is the
`DistributedGradReducer(params, mean, degree)` constructor (`params`
abstracted to a token), `npuStatusSum` is the value that
`reduce_sum(init, (0,))` reads out of the NPU float-status buffer,
`floatStatus` is the per-tensor `_grad_overflow` / `P.FloatStatus` flag,
`allReduce` is `P.AllReduce()` on a scalar, and `lossScalingManager` is the
`scale_update_cell` call `self.loss_scaling_manager(self.loss_scale, cond)`. -/
structure DpEnv where
  network : Batch → Batch → Tensor
  gradFn : Batch → Batch → Tensor → GradTuple
  clip_by_norm : Tensor → ℚ → Tensor
  optimizerParams : ℕ
  mirrorMean : Bool
  deviceNum : ℕ
  makeGradReducer : ℕ → Bool → ℕ → GradTuple → GradTuple
  npuStatusSum : ℚ
  floatStatus : Tensor → ℚ
  allReduce : ℚ → ℚ
  lossScalingManager : ℚ → Bool → Bool

/-- Elementwise sum of two tensors (`grad_sum[j] + record_grad[j].asnumpy()`;
shapes agree in the source because both are gradients of the same
parameter). -/
def addTensor (a b : Tensor) : Tensor := List.zipWith (· + ·) a b

/-- Componentwise sum of two gradient tuples (the `for j in range(grad_len)`
accumulation loop body; both tuples have length `len(weights)` in the
source). -/
def addGradTuple (a b : GradTuple) : GradTuple := List.zipWith addTensor a b

/-- The accumulation pattern shared by both training cells: `grad_sum`
starts as the microbatch-0 gradient and the loop
`for i in range(1, micro_batches)` adds the gradient of microbatch `i`. -/
def gradAccum (f : ℕ → GradTuple) (m : ℕ) : GradTuple :=
  (List.range' 1 (m - 1)).foldl (fun grad_sum i => addGradTuple grad_sum (f i)) (f 0)

/-- State of `_TrainOneStepCell` after `__init__` (lines 458-481).
`gradReducer` is only assigned in the source when `reducer_flag` holds
(otherwise it stays `None` and is never called); `id` stands for that
never-called `None`.  `mech` mirrors `self._mech`. -/
structure TrainOneStepCell where
  sens : ℚ
  reducerFlag : Bool
  gradReducer : GradTuple → GradTuple
  microBatches : ℕ
  l2Norm : ℚ
  mech : GradTuple → GradTuple

/-- `_TrainOneStepCell.__init__` (lines 458-481). -/
def TrainOneStepCell.init (env : DpEnv) (parallelMode : ParallelMode)
    (sens : ℚ) (microBatches : ℕ) (l2NormClip : ℚ)
    (mech : GradTuple → GradTuple) : TrainOneStepCell :=
  let reducerFlag :=
    decide (parallelMode = ParallelMode.DATA_PARALLEL ∨
            parallelMode = ParallelMode.HYBRID_PARALLEL)
  { sens := sens
    reducerFlag := reducerFlag
    gradReducer :=
      if reducerFlag then
        env.makeGradReducer env.optimizerParams env.mirrorMean env.deviceNum
      else id
    microBatches := microBatches
    l2Norm := l2NormClip
    mech := mech }

/-- One loop iteration of `_TrainOneStepCell.construct` (lines 490-493 and
500-503): forward pass on microbatch `i`, sensitivity tensor filled with
`self.sens`, backward pass, clip with `GRADIENT_CLIP_TYPE`. -/
def TrainOneStepCell.microGrad (env : DpEnv) (cell : TrainOneStepCell)
    (rd rl : List Batch) (i : ℕ) : GradTuple :=
  let loss := env.network (rd.getD i []) (rl.getD i [])
  let s := fillTensor loss cell.sens
  let record_grad := env.gradFn (rd.getD i []) (rl.getD i []) s
  ClipGradients.construct env.clip_by_norm record_grad GRADIENT_CLIP_TYPE cell.l2Norm

/-- Observable outcome of one `_TrainOneStepCell.construct` call:
the `self.network` forward calls in order, the gradient tuple handed to
`self.optimizer`, and the returned loss (`F.depend(loss, ...)` returns
`loss`). -/
structure TrainStepOut where
  networkCalls : List (Batch × Batch)
  optGrads : GradTuple
  ret : Tensor

/-- `_TrainOneStepCell.construct(data, label)` (lines 483-515). -/
def TrainOneStepCell.construct (env : DpEnv) (cell : TrainOneStepCell)
    (data label : Batch) : TrainStepOut :=
  let record_datas := splitOp cell.microBatches data
  let record_labels := splitOp cell.microBatches label
  let grad_sum := gradAccum (cell.microGrad env record_datas record_labels) cell.microBatches
  let loss := env.network data label
  let grads := if cell.reducerFlag then cell.gradReducer grad_sum else grad_sum
  { networkCalls :=
      ((0 :: List.range' 1 (cell.microBatches - 1)).map
        (fun i => (record_datas.getD i [], record_labels.getD i []))) ++ [(data, label)]
    optGrads := grads
    ret := loss }

/-- State of `_TrainOneStepWithLossScaleCell` after `__init__`
(lines 305-349).  `gpuTarget` records the device dispatch of lines 313-322,
`gradReducer` starts as `F.identity` and becomes a `DistributedGradReducer`
when the parallel mode is data- or hybrid-parallel (lines 329-334),
`lossScale` is the `loss_scale` parameter, set exactly when a
`scale_update_cell` is given (lines 337-341), and `mech` mirrors
`self._mech` (line 349). -/
structure TrainOneStepWithLossScaleCell where
  gpuTarget : Bool
  reducerFlag : Bool
  gradReducer : GradTuple → GradTuple
  isDistributed : Bool
  lossScale : Option ℚ
  microBatches : ℕ
  l2Norm : ℚ
  mech : GradTuple → GradTuple

/-- `_TrainOneStepWithLossScaleCell.__init__` (lines 305-349); the
`scale_update_cell` argument is abstracted to its
`get_loss_scale()` value (`none` when the update cell is `None`). -/
def TrainOneStepWithLossScaleCell.init (env : DpEnv)
    (deviceTarget : DeviceTarget) (parallelMode : ParallelMode)
    (scaleUpdateCell : Option ℚ) (microBatches : ℕ) (l2NormClip : ℚ)
    (mech : GradTuple → GradTuple) : TrainOneStepWithLossScaleCell :=
  let reducerFlag :=
    decide (parallelMode = ParallelMode.DATA_PARALLEL ∨
            parallelMode = ParallelMode.HYBRID_PARALLEL)
  { gpuTarget := decide (deviceTarget = DeviceTarget.GPU)
    reducerFlag := reducerFlag
    gradReducer :=
      if reducerFlag then
        env.makeGradReducer env.optimizerParams env.mirrorMean env.deviceNum
      else id
    isDistributed := decide (parallelMode ≠ ParallelMode.STAND_ALONE)
    lossScale := scaleUpdateCell
    microBatches := microBatches
    l2Norm := l2NormClip
    mech := mech }

/-- One gradient computation of `_TrainOneStepWithLossScaleCell.construct`
(lines 373-376 and 384-387): forward pass on microbatch `i`, sensitivity
`ones_like(loss) * cast(scaling_sens, dtype(loss))`, backward pass, clip
with `GRADIENT_CLIP_TYPE`. -/
def TrainOneStepWithLossScaleCell.microGrad (env : DpEnv)
    (cell : TrainOneStepWithLossScaleCell) (scalingSens : ℚ)
    (rd rl : List Batch) (i : ℕ) : GradTuple :=
  let loss := env.network (rd.getD i []) (rl.getD i [])
  let s := onesTimes loss scalingSens
  let record_grad := env.gradFn (rd.getD i []) (rl.getD i []) s
  ClipGradients.construct env.clip_by_norm record_grad GRADIENT_CLIP_TYPE cell.l2Norm

/-- Observable outcome of one `_TrainOneStepWithLossScaleCell.construct`
call: the `self.network` forward calls in order, the effective scaling
sensitivity, the pre-AllReduce overflow flag sum, the condition `cond`,
the `overflow` value that guards the optimizer, whether the optimizer was
invoked, the gradient tuple at the optimizer call site, and the returned
triple (`F.depend(ret, opt)` returns `ret`). -/
structure LossScaleStepOut where
  networkCalls : List (Batch × Batch)
  scalingSens : ℚ
  flagSum : ℚ
  cond : Bool
  overflow : Bool
  optInvoked : Bool
  optGrads : GradTuple
  ret : Tensor × Bool × ℚ

/-- `_TrainOneStepWithLossScaleCell.construct(data, label, sens=None)`
(lines 351-424).  The NPU status-buffer init/clear/read of lines 356-360 and
400-403 is summarised by the uninterpreted `env.npuStatusSum`; when the
`loss_scale` parameter is read while it is unset (`sens=None` with no
update cell, a crash in the source) the model reads `0`. -/
def TrainOneStepWithLossScaleCell.construct (env : DpEnv)
    (cell : TrainOneStepWithLossScaleCell) (data label : Batch)
    (sens : Option ℚ) : LossScaleStepOut :=
  let scaling_sens :=
    match sens with
    | none => cell.lossScale.getD 0
    | some s => s
  let record_datas := splitOp cell.microBatches data
  let record_labels := splitOp cell.microBatches label
  let grad_sum :=
    gradAccum (cell.microGrad env scaling_sens record_datas record_labels)
      cell.microBatches
  let loss := env.network data label
  let grads0 := grad_sum.map (tensor_grad_scale scaling_sens)
  let grads := cell.gradReducer grads0
  let flag_sum :=
    if cell.gpuTarget then (grads.map env.floatStatus).sum
    else env.npuStatusSum
  let cond :=
    if cell.isDistributed then decide ((1 : ℚ) ≤ env.allReduce flag_sum)
    else decide ((1 : ℚ) ≤ flag_sum)
  let overflow :=
    match sens with
    | none => env.lossScalingManager (cell.lossScale.getD 0) cond
    | some _ => cond
  { networkCalls :=
      ((0 :: List.range' 1 (cell.microBatches - 1)).map
        (fun i => (record_datas.getD i [], record_labels.getD i []))) ++ [(data, label)]
    scalingSens := scaling_sens
    flagSum := flag_sum
    cond := cond
    overflow := overflow
    optInvoked := !overflow
    optGrads := grads
    ret := (loss, cond, scaling_sens) }

/-- `get_loss_scale()` / `get_update_cell()` view of a loss-scale manager;
an update cell is abstracted to its own `get_loss_scale()` value. -/
structure LossScaleManager where
  lossScaleVal : ℚ
  updateCell : Option ℚ

/-- The training network that `DPModel` builds: which wrapper ends up
around the user network. `frameworkAmp` is the fallback to the framework
`amp.build_train_network`, `withLossCell` is `nn.WithLossCell`, and
`plainNetwork` is the unwrapped network. -/
inductive BuiltNet
  | lossScaleCell (c : TrainOneStepWithLossScaleCell)
  | oneStepCell (c : TrainOneStepCell)
  | frameworkAmp
  | withLossCell
  | plainNetwork

/-- `DPModel.amp_build_train_network` (lines 115-180), from the point where
the effective `config.loss_scale_manager` is known (the merge of the
`_config_level[level]` default with the keyword arguments); the network
preprocessing (`to_float`, batchnorm, loss wrapping, virtual dataset) does
not influence which training cell is chosen and is not modelled. -/
def DPModel.amp_build_train_network (env : DpEnv)
    (deviceTarget : DeviceTarget) (enableGe : Bool)
    (parallelMode : ParallelMode) (microBatches : ℕ) (normClip : ℚ)
    (mech : GradTuple → GradTuple)
    (configLossScaleManager : Option LossScaleManager) :
    Except String BuiltNet :=
  let loss_scale : ℚ :=
    match configLossScaleManager with
    | none => 1
    | some mgr => mgr.lossScaleVal
  match configLossScaleManager with
  | some mgr =>
    match mgr.updateCell with
    | some update_cell =>
      if enableGe = false ∧ deviceTarget = DeviceTarget.CPU then
        Except.error "Only loss_scale_manager=None and FixedLossScaleManager(drop_overflow_update=False) are supported in current version"
      else
        Except.ok (BuiltNet.lossScaleCell
          (TrainOneStepWithLossScaleCell.init env deviceTarget parallelMode
            (some update_cell) microBatches normClip mech))
    | none =>
      Except.ok (BuiltNet.oneStepCell
        (TrainOneStepCell.init env parallelMode loss_scale microBatches normClip mech))
  | none =>
    Except.ok (BuiltNet.oneStepCell
      (TrainOneStepCell.init env parallelMode loss_scale microBatches normClip mech))

/-- The `DPModel` attributes that `_build_train_network` reads:
`_micro_batches` (already normalised to `none` when falsy, per `__init__`
lines 106-113), `_norm_clip`, `_dp_mech`, whether an optimizer and a loss
function were given, whether a loss-scale manager was set, the manager
itself, and the `loss_scale_manager` entry of `_config_level[amp_level]`
that applies when no manager keyword is passed. -/
structure DPModelState where
  microBatches : Option ℕ
  normClip : ℚ
  mech : GradTuple → GradTuple
  optimizerGiven : Bool
  lossFnGiven : Bool
  lossScaleManagerSet : Bool
  lossScaleManager : Option LossScaleManager
  levelDefaultManager : Option LossScaleManager

/-- `DPModel.__init__` treatment of `micro_batches` (lines 106-110):
falsy values become `None`. -/
def DPModel.initMicroBatches (micro_batches : Option ℕ) : Option ℕ :=
  match micro_batches with
  | none => none
  | some m => if m = 0 then none else some m

/-- The `config.loss_scale_manager` seen by `amp_build_train_network`: the
keyword overrides the level default exactly when `_build_train_network`
passes it (i.e. when `_loss_scale_manager_set`). -/
def DPModelState.effectiveManager (st : DPModelState) : Option LossScaleManager :=
  if st.lossScaleManagerSet then st.lossScaleManager else st.levelDefaultManager

/-- `DPModel._build_train_network` (lines 182-222); the
`set_auto_parallel` call on line 220-221 has no bearing on which wrapper
is built. -/
def DPModel.build_train_network (env : DpEnv) (deviceTarget : DeviceTarget)
    (enableGe : Bool) (parallelMode : ParallelMode) (st : DPModelState) :
    Except String BuiltNet :=
  match st.microBatches with
  | some mb =>
    if st.optimizerGiven then
      DPModel.amp_build_train_network env deviceTarget enableGe parallelMode
        mb st.normClip st.mech st.effectiveManager
    else if st.lossFnGiven then Except.ok BuiltNet.withLossCell
    else Except.ok BuiltNet.plainNetwork
  | none =>
    if st.optimizerGiven then Except.ok BuiltNet.frameworkAmp
    else if st.lossFnGiven then Except.ok BuiltNet.withLossCell
    else Except.ok BuiltNet.plainNetwork

/-! ### Helper lemmas -/

/-- The append-singleton fold of `_ClipGradients.construct` is a map. -/
lemma foldl_append_singleton {α β : Type} (f : α → β) :
    ∀ (xs : List α) (acc : List β),
      xs.foldl (fun ng g => ng ++ [f g]) acc = acc ++ xs.map f := by
  intro xs
  induction xs with
  | nil => intro acc; simp
  | cons g gs ih => intro acc; simp [ih]

/-- With `clip_type = GRADIENT_CLIP_TYPE` the clip cell maps `ClipByNorm`
over the tuple. -/
lemma clipGradients_norm_eq_map (cbn : Tensor → ℚ → Tensor)
    (grads : GradTuple) (c : ℚ) :
    ClipGradients.construct cbn grads GRADIENT_CLIP_TYPE c
      = grads.map (fun g => cbn g c) := by
  unfold ClipGradients.construct GRADIENT_CLIP_TYPE
  simp [foldl_append_singleton]

/-- Indexing a `zipWith` of equally long lists. -/
lemma zipWith_getD {α : Type} (f : α → α → α) (a b : List α) (d : α) (j : ℕ)
    (hj : j < a.length) (hb : j < b.length) :
    (List.zipWith f a b).getD j d = f (a.getD j d) (b.getD j d) := by
  simp [List.getD_eq_getElem?_getD, List.getElem?_zipWith,
    List.getElem?_eq_getElem hj, List.getElem?_eq_getElem hb]

/-- The partial accumulation after the loop iterations `1, ..., n`. -/
def partialAccum (f : ℕ → GradTuple) (n : ℕ) : GradTuple :=
  (List.range' 1 n).foldl (fun grad_sum i => addGradTuple grad_sum (f i)) (f 0)

lemma gradAccum_eq_partialAccum (f : ℕ → GradTuple) (m : ℕ) :
    gradAccum f m = partialAccum f (m - 1) := rfl

lemma partialAccum_succ (f : ℕ → GradTuple) (n : ℕ) :
    partialAccum f (n + 1) = addGradTuple (partialAccum f n) (f (n + 1)) := by
  unfold partialAccum
  rw [List.range'_concat]
  simp [Nat.add_comm 1 n]

/-- Shapes and elementwise value of the partial accumulation: after adding
microbatches `1..n`, each element is the sum of the first `n + 1` clipped
microbatch gradients. -/
lemma partialAccum_invariant (f : ℕ → GradTuple) (m : ℕ)
    (hL : ∀ i < m, (f i).length = (f 0).length)
    (hK : ∀ i < m, ∀ j < (f 0).length,
      ((f i).getD j []).length = ((f 0).getD j []).length) :
    ∀ n, n + 1 ≤ m →
      (partialAccum f n).length = (f 0).length ∧
      (∀ j < (f 0).length,
        ((partialAccum f n).getD j []).length = ((f 0).getD j []).length) ∧
      (∀ j, j < (f 0).length → ∀ k, k < ((f 0).getD j []).length →
        ((partialAccum f n).getD j []).getD k 0
          = ∑ i in Finset.range (n + 1), ((f i).getD j []).getD k 0) := by
  intro n
  induction n with
  | zero =>
    intro _
    refine ⟨rfl, ?_, ?_⟩
    · intro j _; rfl
    · intro j hj k hk; simp [partialAccum, Finset.sum_range_one]
  | succ n ih =>
    intro hn
    have hn' : n + 1 ≤ m := Nat.le_of_succ_le hn
    obtain ⟨ihL, ihK, ihE⟩ := ih hn'
    have hfn : n + 1 < m := hn
    rw [partialAccum_succ]
    have hjlen : ∀ j, j < (f 0).length → j < (partialAccum f n).length := by
      intro j hj; rw [ihL]; exact hj
    have hjlen' : ∀ j, j < (f 0).length → j < (f (n + 1)).length := by
      intro j hj; rw [hL (n + 1) hfn]; exact hj
    refine ⟨?_, ?_, ?_⟩
    · simp [addGradTuple, List.length_zipWith, ihL, hL (n + 1) hfn]
    · intro j hj
      rw [addGradTuple, zipWith_getD _ _ _ _ j (hjlen j hj) (hjlen' j hj),
        addTensor, List.length_zipWith, ihK j hj, hK (n + 1) hfn j hj,
        Nat.min_self]
    · intro j hj k hk
      rw [addGradTuple, zipWith_getD _ _ _ _ j (hjlen j hj) (hjlen' j hj)]
      have hkA : k < ((partialAccum f n).getD j []).length := by
        rw [ihK j hj]; exact hk
      have hkB : k < ((f (n + 1)).getD j []).length := by
        rw [hK (n + 1) hfn j hj]; exact hk
      rw [addTensor, zipWith_getD _ _ _ _ k hkA hkB]
      rw [ihE j hj k hk]
      exact (Finset.sum_range_succ
        (fun i => ((f i).getD j []).getD k 0) (n + 1)).symm

/-- Each element of the accumulated gradient tuple is the sum over all `m`
microbatches of the corresponding element of the clipped microbatch
gradient. -/
lemma gradAccum_elem (f : ℕ → GradTuple) (m : ℕ) (hm : 1 ≤ m)
    (hL : ∀ i < m, (f i).length = (f 0).length)
    (hK : ∀ i < m, ∀ j < (f 0).length,
      ((f i).getD j []).length = ((f 0).getD j []).length)
    (j k : ℕ) (hj : j < (f 0).length) (hk : k < ((f 0).getD j []).length) :
    ((gradAccum f m).getD j []).getD k 0
      = ∑ i in Finset.range m, ((f i).getD j []).getD k 0 := by
  have h := (partialAccum_invariant f m hL hK (m - 1) (by omega)).2.2 j hj k hk
  have hm1 : m - 1 + 1 = m := by omega
  rw [hm1] at h
  rw [gradAccum_eq_partialAccum]
  exact h

/-! ### Spec-side views of the per-step dataflow -/

/-- The clipped gradient of microbatch `i` of a `_TrainOneStepCell` step on
`(data, label)`: the microbatches come from `P.Split(0, micro_batches)`. -/
def clippedMicroGrad (env : DpEnv) (cell : TrainOneStepCell)
    (data label : Batch) (i : ℕ) : GradTuple :=
  cell.microGrad env (splitOp cell.microBatches data)
    (splitOp cell.microBatches label) i

/-- `scaling_sens` as resolved by lines 362-365: the `sens` argument when
provided, otherwise the stored `loss_scale` parameter. -/
def TrainOneStepWithLossScaleCell.effSens
    (cell : TrainOneStepWithLossScaleCell) (sens : Option ℚ) : ℚ :=
  match sens with
  | none => cell.lossScale.getD 0
  | some s => s

/-- The clipped gradient of microbatch `i` of a
`_TrainOneStepWithLossScaleCell` step on `(data, label)` with optional
`sens`. -/
def lsClippedMicroGrad (env : DpEnv) (cell : TrainOneStepWithLossScaleCell)
    (data label : Batch) (sens : Option ℚ) (i : ℕ) : GradTuple :=
  cell.microGrad env (cell.effSens sens) (splitOp cell.microBatches data)
    (splitOp cell.microBatches label) i

/-! ### Concrete fixtures used by witnesses and counterexamples -/

/-- A small concrete environment: constant loss `[1]`, constant gradient
`[[2]]`, `ClipByNorm` instantiated as the identity (the norm bound is
large), a gradient reducer that returns `[[7]]`, and no overflow flags. -/
def wEnv : DpEnv :=
  { network := fun _ _ => [1]
    gradFn := fun _ _ _ => [[2]]
    clip_by_norm := fun t _ => t
    optimizerParams := 0
    mirrorMean := false
    deviceNum := 1
    makeGradReducer := fun _ _ _ _ => [[7]]
    npuStatusSum := 0
    floatStatus := fun _ => 0
    allReduce := id
    lossScalingManager := fun _ c => c }

/-- A noise mechanism whose output `[[99]]` never matches the gradients of
`wEnv`, so applying it would be visible. -/
def wMech : GradTuple → GradTuple := fun _ => [[99]]

/-- `_TrainOneStepCell` fixture: stand-alone, one microbatch, clip bound 5,
noise mechanism `wMech`. -/
def wCellMech : TrainOneStepCell :=
  TrainOneStepCell.init wEnv ParallelMode.STAND_ALONE 1 1 5 wMech

/-- `_TrainOneStepWithLossScaleCell` fixture: Ascend, stand-alone, update
cell with loss scale 4, one microbatch, clip bound 5, mechanism `wMech`. -/
def wLsCellMech : TrainOneStepWithLossScaleCell :=
  TrainOneStepWithLossScaleCell.init wEnv DeviceTarget.Ascend
    ParallelMode.STAND_ALONE (some 4) 1 5 wMech

/-! ### Claims -/

/-- C3: clipping is dispatched with `clip_type = GRADIENT_CLIP_TYPE = 1`,
in which case `_ClipGradients.construct` applies `ClipByNorm` with the
configured bound to every tensor of the gradient tuple and returns a tuple
of the same length; both training cells invoke it that way on each
microbatch gradient (with bound `l2_norm_clip`). -/
theorem clipGradients_clipByNorm_every_tensor
    (cbn : Tensor → ℚ → Tensor) (grads : GradTuple) (c : ℚ)
    (env : DpEnv) (cell : TrainOneStepCell)
    (lsCell : TrainOneStepWithLossScaleCell) (s : ℚ)
    (rd rl : List Batch) (i : ℕ) :
    GRADIENT_CLIP_TYPE = 1 ∧
    ClipGradients.construct cbn grads GRADIENT_CLIP_TYPE c
      = grads.map (fun g => cbn g c) ∧
    (ClipGradients.construct cbn grads GRADIENT_CLIP_TYPE c).length
      = grads.length ∧
    cell.microGrad env rd rl i
      = ClipGradients.construct env.clip_by_norm
          (env.gradFn (rd.getD i []) (rl.getD i [])
            (fillTensor (env.network (rd.getD i []) (rl.getD i [])) cell.sens))
          GRADIENT_CLIP_TYPE cell.l2Norm ∧
    lsCell.microGrad env s rd rl i
      = ClipGradients.construct env.clip_by_norm
          (env.gradFn (rd.getD i []) (rl.getD i [])
            (onesTimes (env.network (rd.getD i []) (rl.getD i [])) s))
          GRADIENT_CLIP_TYPE lsCell.l2Norm := by
  refine ⟨rfl, clipGradients_norm_eq_map cbn grads c, ?_, rfl, rfl⟩
  rw [clipGradients_norm_eq_map]
  simp

/-- C1 counterexample: with the concrete mechanism `wMech` (constant
`[[99]]`), neither training cell passes `mech(accumulated grads)` to the
optimizer — the optimizer input is the accumulated (and, for the
loss-scale cell, unscaled) gradients untouched by `mech`. -/
theorem trainCells_mech_applied_counterexample :
    (TrainOneStepCell.construct wEnv wCellMech [[0]] [[0]]).optGrads
        ≠ wCellMech.mech
            (gradAccum (clippedMicroGrad wEnv wCellMech [[0]] [[0]])
              wCellMech.microBatches) ∧
    (TrainOneStepWithLossScaleCell.construct wEnv wLsCellMech [[0]] [[0]] none).optGrads
        ≠ wLsCellMech.mech
            (gradAccum (lsClippedMicroGrad wEnv wLsCellMech [[0]] [[0]] none)
              wLsCellMech.microBatches) := by
  constructor
  · decide
  · norm_num [TrainOneStepWithLossScaleCell.construct,
      TrainOneStepWithLossScaleCell.init, TrainOneStepWithLossScaleCell.microGrad,
      TrainOneStepWithLossScaleCell.effSens, wLsCellMech, wEnv, wMech,
      gradAccum, lsClippedMicroGrad, splitOp, splitChunks,
      ClipGradients.construct, GRADIENT_CLIP_TYPE, tensor_grad_scale,
      reciprocal, onesTimes, onesLike, addGradTuple, addTensor]
    rw [if_neg (by simp)]
    norm_num

/-- C1 (amended): both cells store the `mech` object at construction but
never invoke it during `construct` — the whole step outcome is invariant
under replacing `mech`, and the optimizer receives the accumulated clipped
gradients directly (after the loss-scale division and the optional
distributed reduction, neither of which involves `mech`). -/
theorem trainCells_mech_never_used (env : DpEnv) (cell : TrainOneStepCell)
    (lsCell : TrainOneStepWithLossScaleCell)
    (mech1 mech2 : GradTuple → GradTuple)
    (data label : Batch) (sens : Option ℚ) :
    TrainOneStepCell.construct env { cell with mech := mech1 } data label
      = TrainOneStepCell.construct env { cell with mech := mech2 } data label ∧
    TrainOneStepWithLossScaleCell.construct env { lsCell with mech := mech1 }
        data label sens
      = TrainOneStepWithLossScaleCell.construct env { lsCell with mech := mech2 }
          data label sens ∧
    (TrainOneStepCell.construct env cell data label).optGrads
      = (if cell.reducerFlag then cell.gradReducer else id)
          (gradAccum (clippedMicroGrad env cell data label) cell.microBatches) ∧
    (TrainOneStepWithLossScaleCell.construct env lsCell data label sens).optGrads
      = lsCell.gradReducer
          ((gradAccum (lsClippedMicroGrad env lsCell data label sens)
              lsCell.microBatches).map
            (tensor_grad_scale (lsCell.effSens sens))) := by
  refine ⟨rfl, rfl, ?_, rfl⟩
  have hgen : ∀ (b : Bool) (f : GradTuple → GradTuple) (x : GradTuple),
      (if b then f x else x) = (if b then f else id) x := by
    intro b f x
    cases b <;> rfl
  exact hgen cell.reducerFlag cell.gradReducer _

/-- Stand-alone `_TrainOneStepCell` fixture (no gradient reducer). -/
def wCellSA : TrainOneStepCell :=
  TrainOneStepCell.init wEnv ParallelMode.STAND_ALONE 1 1 5 wMech

/-- Data-parallel `_TrainOneStepCell` fixture (gradient reducer active). -/
def wCellDP : TrainOneStepCell :=
  TrainOneStepCell.init wEnv ParallelMode.DATA_PARALLEL 1 1 5 wMech

/-- C2 counterexample: in `DATA_PARALLEL` mode the tuple passed to the
optimizer is the `DistributedGradReducer` output, which differs from the
componentwise sum of the clipped microbatch gradients. -/
theorem trainOneStepCell_grads_sum_counterexample :
    ¬ (((TrainOneStepCell.construct wEnv wCellDP [[0]] [[0]]).optGrads.getD 0 []).getD 0 0
        = ∑ i in Finset.range wCellDP.microBatches,
            ((clippedMicroGrad wEnv wCellDP [[0]] [[0]] i).getD 0 []).getD 0 0) := by
  rw [show wCellDP.microBatches = 1 from rfl, Finset.sum_range_one]
  decide

/-- C2 (amended): when the gradient reducer is inactive (every parallel
mode except `DATA_PARALLEL`/`HYBRID_PARALLEL`), each element of the
gradient tuple that `_TrainOneStepCell.construct` passes to the optimizer
is the sum over the `micro_batches` microbatches (split along axis 0) of
the corresponding element of the clipped microbatch gradient; in
data-parallel modes that sum is first passed through the reducer. -/
theorem trainOneStepCell_grads_are_clipped_sum
    (env : DpEnv) (cell : TrainOneStepCell) (data label : Batch)
    (hm : 1 ≤ cell.microBatches)
    (hflag : cell.reducerFlag = false)
    (hL : ∀ i < cell.microBatches,
      (clippedMicroGrad env cell data label i).length
        = (clippedMicroGrad env cell data label 0).length)
    (hK : ∀ i < cell.microBatches,
      ∀ j < (clippedMicroGrad env cell data label 0).length,
        ((clippedMicroGrad env cell data label i).getD j []).length
          = ((clippedMicroGrad env cell data label 0).getD j []).length)
    (j k : ℕ)
    (hj : j < (clippedMicroGrad env cell data label 0).length)
    (hk : k < ((clippedMicroGrad env cell data label 0).getD j []).length) :
    ((TrainOneStepCell.construct env cell data label).optGrads.getD j []).getD k 0
      = ∑ i in Finset.range cell.microBatches,
          ((clippedMicroGrad env cell data label i).getD j []).getD k 0 := by
  have hopt : (TrainOneStepCell.construct env cell data label).optGrads
      = gradAccum (clippedMicroGrad env cell data label) cell.microBatches := by
    have hif : (TrainOneStepCell.construct env cell data label).optGrads
        = if cell.reducerFlag then
            cell.gradReducer
              (gradAccum (clippedMicroGrad env cell data label) cell.microBatches)
          else gradAccum (clippedMicroGrad env cell data label) cell.microBatches := rfl
    rw [hif, hflag]
    simp
  rw [hopt]
  exact gradAccum_elem _ _ hm hL hK j k hj hk

/-- C2 witness at a concrete stand-alone instance. -/
theorem trainOneStepCell_grads_are_clipped_sum_witness :
    ((TrainOneStepCell.construct wEnv wCellSA [[0]] [[0]]).optGrads.getD 0 []).getD 0 0
      = ∑ i in Finset.range wCellSA.microBatches,
          ((clippedMicroGrad wEnv wCellSA [[0]] [[0]] i).getD 0 []).getD 0 0 :=
  trainOneStepCell_grads_are_clipped_sum wEnv wCellSA [[0]] [[0]]
    (by decide) (by decide) (by decide) (by decide) 0 0 (by decide) (by decide)

/-- C8: in `_TrainOneStepWithLossScaleCell.construct` the optimizer is
invoked exactly when the `overflow` value is false, and the returned triple
is always `(loss, cond, scaling_sens)` — it is produced whether or not the
weight update was skipped. -/
theorem lossScaleCell_optimizer_iff_no_overflow
    (env : DpEnv) (cell : TrainOneStepWithLossScaleCell)
    (data label : Batch) (sens : Option ℚ) :
    ((TrainOneStepWithLossScaleCell.construct env cell data label sens).optInvoked = true
      ↔ (TrainOneStepWithLossScaleCell.construct env cell data label sens).overflow = false) ∧
    (TrainOneStepWithLossScaleCell.construct env cell data label sens).ret
      = (env.network data label,
         (TrainOneStepWithLossScaleCell.construct env cell data label sens).cond,
         (TrainOneStepWithLossScaleCell.construct env cell data label sens).scalingSens) := by
  refine ⟨?_, rfl⟩
  rw [show (TrainOneStepWithLossScaleCell.construct env cell data label sens).optInvoked
        = !(TrainOneStepWithLossScaleCell.construct env cell data label sens).overflow
      from rfl]
  cases (TrainOneStepWithLossScaleCell.construct env cell data label sens).overflow <;> simp

/-- C10: in both cells the returned loss is a final forward pass of the
network on the full, unsplit `(data, label)` (the last network call), and
the network forward pass runs `micro_batches + 1` times per step. -/
theorem trainCells_final_forward_full_batch
    (env : DpEnv) (cell : TrainOneStepCell)
    (lsCell : TrainOneStepWithLossScaleCell) (data label : Batch)
    (sens : Option ℚ)
    (hm : 1 ≤ cell.microBatches) (hlm : 1 ≤ lsCell.microBatches) :
    (TrainOneStepCell.construct env cell data label).ret
      = env.network data label ∧
    (TrainOneStepCell.construct env cell data label).networkCalls.length
      = cell.microBatches + 1 ∧
    (TrainOneStepCell.construct env cell data label).networkCalls.getLast?
      = some (data, label) ∧
    (TrainOneStepWithLossScaleCell.construct env lsCell data label sens).ret.1
      = env.network data label ∧
    (TrainOneStepWithLossScaleCell.construct env lsCell data label sens).networkCalls.length
      = lsCell.microBatches + 1 ∧
    (TrainOneStepWithLossScaleCell.construct env lsCell data label sens).networkCalls.getLast?
      = some (data, label) := by
  refine ⟨rfl, ?_, ?_, rfl, ?_, ?_⟩
  · show (((0 :: List.range' 1 (cell.microBatches - 1)).map _) ++ [(data, label)]).length
        = cell.microBatches + 1
    simp
    omega
  · exact List.getLast?_concat _
  · show (((0 :: List.range' 1 (lsCell.microBatches - 1)).map _) ++ [(data, label)]).length
        = lsCell.microBatches + 1
    simp
    omega
  · exact List.getLast?_concat _

/-- C10 witness at a concrete instance with one microbatch. -/
theorem trainCells_final_forward_full_batch_witness :
    (TrainOneStepCell.construct wEnv wCellSA [[0]] [[0]]).ret
      = wEnv.network [[0]] [[0]] ∧
    (TrainOneStepCell.construct wEnv wCellSA [[0]] [[0]]).networkCalls.length
      = wCellSA.microBatches + 1 :=
  ⟨(trainCells_final_forward_full_batch wEnv wCellSA wLsCellMech [[0]] [[0]]
      none (by decide) (by decide)).1,
   (trainCells_final_forward_full_batch wEnv wCellSA wLsCellMech [[0]] [[0]]
      none (by decide) (by decide)).2.1⟩

/-- C5: overflow detection dispatches on the device target — off GPU the
flag sum is the value read from the NPU float-status buffer, on GPU it is
the sum of the `FloatStatus` flags of the gradients at the optimizer call
site — and the overflow condition is `1 <= flag_sum`, applied to the
`AllReduce` of the flag exactly when the parallel mode is not
stand-alone. -/
theorem lossScaleCell_overflow_dispatch
    (env : DpEnv) (dev : DeviceTarget) (p : ParallelMode) (suc : Option ℚ)
    (m : ℕ) (l2 : ℚ) (mech : GradTuple → GradTuple)
    (data label : Batch) (sens : Option ℚ) :
    (TrainOneStepWithLossScaleCell.init env dev p suc m l2 mech).gpuTarget
      = decide (dev = DeviceTarget.GPU) ∧
    (dev ≠ DeviceTarget.GPU →
      (TrainOneStepWithLossScaleCell.construct env
        (TrainOneStepWithLossScaleCell.init env dev p suc m l2 mech)
        data label sens).flagSum = env.npuStatusSum) ∧
    (dev = DeviceTarget.GPU →
      (TrainOneStepWithLossScaleCell.construct env
        (TrainOneStepWithLossScaleCell.init env dev p suc m l2 mech)
        data label sens).flagSum
        = ((TrainOneStepWithLossScaleCell.construct env
            (TrainOneStepWithLossScaleCell.init env dev p suc m l2 mech)
            data label sens).optGrads.map env.floatStatus).sum) ∧
    (TrainOneStepWithLossScaleCell.construct env
      (TrainOneStepWithLossScaleCell.init env dev p suc m l2 mech)
      data label sens).cond
      = (if p ≠ ParallelMode.STAND_ALONE then
          decide ((1 : ℚ) ≤ env.allReduce
            ((TrainOneStepWithLossScaleCell.construct env
              (TrainOneStepWithLossScaleCell.init env dev p suc m l2 mech)
              data label sens).flagSum))
        else
          decide ((1 : ℚ) ≤
            (TrainOneStepWithLossScaleCell.construct env
              (TrainOneStepWithLossScaleCell.init env dev p suc m l2 mech)
              data label sens).flagSum)) := by
  refine ⟨rfl, ?_, ?_, ?_⟩
  · intro h
    cases dev
    · rfl
    · exact absurd rfl h
    · rfl
  · intro h
    subst h
    rfl
  · cases p <;> rfl

/-- C5 witness on Ascend (non-GPU path). -/
theorem lossScaleCell_overflow_dispatch_witness :
    (TrainOneStepWithLossScaleCell.construct wEnv
      (TrainOneStepWithLossScaleCell.init wEnv DeviceTarget.Ascend
        ParallelMode.STAND_ALONE (some 4) 1 5 wMech)
      [[0]] [[0]] none).flagSum = wEnv.npuStatusSum :=
  (lossScaleCell_overflow_dispatch wEnv DeviceTarget.Ascend
    ParallelMode.STAND_ALONE (some 4) 1 5 wMech [[0]] [[0]] none).2.1
    (by decide)

/-- C6: in both training cells the accumulated gradients pass through the
`DistributedGradReducer` built from the optimizer parameters, the
mirror-mean flag and the device count exactly when the parallel mode is
`DATA_PARALLEL` or `HYBRID_PARALLEL`, and reach the optimizer unreduced in
every other mode. -/
theorem gradReducer_exactly_in_data_parallel
    (env : DpEnv) (p : ParallelMode) (sens l2 : ℚ)
    (mech : GradTuple → GradTuple) (m : ℕ) (dev : DeviceTarget)
    (suc : Option ℚ) (data label : Batch) (lsSens : Option ℚ) :
    ((p = ParallelMode.DATA_PARALLEL ∨ p = ParallelMode.HYBRID_PARALLEL) →
      (TrainOneStepCell.construct env
        (TrainOneStepCell.init env p sens m l2 mech) data label).optGrads
        = env.makeGradReducer env.optimizerParams env.mirrorMean env.deviceNum
            (gradAccum
              (clippedMicroGrad env (TrainOneStepCell.init env p sens m l2 mech)
                data label) m) ∧
      (TrainOneStepWithLossScaleCell.construct env
        (TrainOneStepWithLossScaleCell.init env dev p suc m l2 mech)
        data label lsSens).optGrads
        = env.makeGradReducer env.optimizerParams env.mirrorMean env.deviceNum
            ((gradAccum
              (lsClippedMicroGrad env
                (TrainOneStepWithLossScaleCell.init env dev p suc m l2 mech)
                data label lsSens) m).map
              (tensor_grad_scale
                ((TrainOneStepWithLossScaleCell.init env dev p suc m l2 mech).effSens
                  lsSens)))) ∧
    (¬(p = ParallelMode.DATA_PARALLEL ∨ p = ParallelMode.HYBRID_PARALLEL) →
      (TrainOneStepCell.construct env
        (TrainOneStepCell.init env p sens m l2 mech) data label).optGrads
        = gradAccum
            (clippedMicroGrad env (TrainOneStepCell.init env p sens m l2 mech)
              data label) m ∧
      (TrainOneStepWithLossScaleCell.construct env
        (TrainOneStepWithLossScaleCell.init env dev p suc m l2 mech)
        data label lsSens).optGrads
        = (gradAccum
            (lsClippedMicroGrad env
              (TrainOneStepWithLossScaleCell.init env dev p suc m l2 mech)
              data label lsSens) m).map
            (tensor_grad_scale
              ((TrainOneStepWithLossScaleCell.init env dev p suc m l2 mech).effSens
                lsSens))) := by
  constructor
  · intro h
    rcases h with rfl | rfl
    · exact ⟨rfl, rfl⟩
    · exact ⟨rfl, rfl⟩
  · intro h
    cases p
    · exact ⟨rfl, rfl⟩
    · exact absurd (Or.inl rfl) h
    · exact absurd (Or.inr rfl) h
    · exact ⟨rfl, rfl⟩
    · exact ⟨rfl, rfl⟩

/-- C6 witness in `DATA_PARALLEL` mode. -/
theorem gradReducer_exactly_in_data_parallel_witness :
    (TrainOneStepCell.construct wEnv
      (TrainOneStepCell.init wEnv ParallelMode.DATA_PARALLEL 1 1 5 wMech)
      [[0]] [[0]]).optGrads
      = wEnv.makeGradReducer wEnv.optimizerParams wEnv.mirrorMean wEnv.deviceNum
          (gradAccum
            (clippedMicroGrad wEnv
              (TrainOneStepCell.init wEnv ParallelMode.DATA_PARALLEL 1 1 5 wMech)
              [[0]] [[0]]) 1) :=
  ((gradReducer_exactly_in_data_parallel wEnv ParallelMode.DATA_PARALLEL 1 5
      wMech 1 DeviceTarget.Ascend (some 4) [[0]] [[0]] none).1 (Or.inl rfl)).1

/-- C7: after accumulation and before gradient reduction, every
accumulated gradient is multiplied by the reciprocal of the effective
scaling sensitivity — the `sens` argument when provided, otherwise the
stored `loss_scale` parameter — via `tensor_grad_scale`. -/
theorem lossScaleCell_unscales_by_reciprocal
    (env : DpEnv) (cell : TrainOneStepWithLossScaleCell)
    (data label : Batch) (sens : Option ℚ) (s v : ℚ) :
    (TrainOneStepWithLossScaleCell.construct env cell data label sens).optGrads
      = cell.gradReducer
          ((gradAccum (lsClippedMicroGrad env cell data label sens)
              cell.microBatches).map
            (tensor_grad_scale (cell.effSens sens))) ∧
    (TrainOneStepWithLossScaleCell.construct env cell data label sens).scalingSens
      = cell.effSens sens ∧
    (sens = some s → cell.effSens sens = s) ∧
    (sens = none → cell.lossScale = some v → cell.effSens sens = v) ∧
    (∀ scale grad, tensor_grad_scale scale grad
      = grad.map (fun g => g * reciprocal scale)) := by
  refine ⟨rfl, rfl, ?_, ?_, fun _ _ => rfl⟩
  · rintro rfl
    rfl
  · rintro rfl hv
    show cell.lossScale.getD 0 = v
    rw [hv]
    rfl

/-- C7 witness with an explicit `sens` argument. -/
theorem lossScaleCell_unscales_by_reciprocal_witness :
    (TrainOneStepWithLossScaleCell.construct wEnv wLsCellMech [[0]] [[0]]
        (some 8)).optGrads
      = wLsCellMech.gradReducer
          ((gradAccum (lsClippedMicroGrad wEnv wLsCellMech [[0]] [[0]] (some 8))
              wLsCellMech.microBatches).map
            (tensor_grad_scale (wLsCellMech.effSens (some 8)))) ∧
    wLsCellMech.effSens (some 8) = 8 :=
  ⟨(lossScaleCell_unscales_by_reciprocal wEnv wLsCellMech [[0]] [[0]]
      (some 8) 8 0).1,
   (lossScaleCell_unscales_by_reciprocal wEnv wLsCellMech [[0]] [[0]]
      (some 8) 8 0).2.2.1 rfl⟩

/-- `DPModel` state fixture: `micro_batches` unset, optimizer given. -/
def wSt : DPModelState :=
  { microBatches := none
    normClip := 5
    mech := wMech
    optimizerGiven := true
    lossFnGiven := true
    lossScaleManagerSet := false
    lossScaleManager := none
    levelDefaultManager := none }

/-- C4 counterexample: with a non-None update cell on CPU without
`enable_ge`, `amp_build_train_network` raises (returns the `ValueError`)
instead of wrapping the network in `_TrainOneStepWithLossScaleCell`. -/
theorem dpModel_routing_counterexample :
    DPModel.amp_build_train_network wEnv DeviceTarget.CPU false
        ParallelMode.STAND_ALONE 1 5 wMech
        (some { lossScaleVal := 4, updateCell := some 4 })
      = Except.error "Only loss_scale_manager=None and FixedLossScaleManager(drop_overflow_update=False) are supported in current version" := rfl

/-- C4 (amended): with `micro_batches` set and an optimizer,
`_build_train_network` routes through `amp_build_train_network`, which
wraps the network in `_TrainOneStepWithLossScaleCell` when the effective
loss-scale manager provides a non-None update cell — except on CPU without
`enable_ge`, where it raises `ValueError` — and in `_TrainOneStepCell`
when there is no update cell (the stored or default loss-scale value is
passed as `sens`); with `micro_batches` unset it falls back to the
framework `amp.build_train_network`. -/
theorem dpModel_build_train_network_routing
    (env : DpEnv) (dev : DeviceTarget) (ge : Bool) (p : ParallelMode)
    (st : DPModelState) (mb : ℕ) (v uc : ℚ) :
    (st.microBatches = some mb → st.optimizerGiven = true →
      DPModel.build_train_network env dev ge p st
        = DPModel.amp_build_train_network env dev ge p mb st.normClip st.mech
            st.effectiveManager) ∧
    (st.microBatches = none → st.optimizerGiven = true →
      DPModel.build_train_network env dev ge p st
        = Except.ok BuiltNet.frameworkAmp) ∧
    (¬(ge = false ∧ dev = DeviceTarget.CPU) →
      DPModel.amp_build_train_network env dev ge p mb st.normClip st.mech
          (some { lossScaleVal := v, updateCell := some uc })
        = Except.ok (BuiltNet.lossScaleCell
            (TrainOneStepWithLossScaleCell.init env dev p (some uc) mb
              st.normClip st.mech))) ∧
    (DPModel.amp_build_train_network env dev ge p mb st.normClip st.mech
        (some { lossScaleVal := v, updateCell := none })
      = Except.ok (BuiltNet.oneStepCell
          (TrainOneStepCell.init env p v mb st.normClip st.mech))) ∧
    (DPModel.amp_build_train_network env dev ge p mb st.normClip st.mech none
      = Except.ok (BuiltNet.oneStepCell
          (TrainOneStepCell.init env p 1 mb st.normClip st.mech))) := by
  refine ⟨?_, ?_, ?_, rfl, rfl⟩
  · intro h1 h2
    unfold DPModel.build_train_network
    rw [h1]
    simp [h2]
  · intro h1 h2
    unfold DPModel.build_train_network
    rw [h1]
    simp [h2]
  · intro h
    have hif : DPModel.amp_build_train_network env dev ge p mb st.normClip
        st.mech (some { lossScaleVal := v, updateCell := some uc })
        = if ge = false ∧ dev = DeviceTarget.CPU then
            Except.error "Only loss_scale_manager=None and FixedLossScaleManager(drop_overflow_update=False) are supported in current version"
          else
            Except.ok (BuiltNet.lossScaleCell
              (TrainOneStepWithLossScaleCell.init env dev p (some uc) mb
                st.normClip st.mech)) := rfl
    rw [hif, if_neg h]

/-- C4 witness: the `micro_batches = None` fallback at a concrete state. -/
theorem dpModel_build_train_network_routing_witness :
    DPModel.build_train_network wEnv DeviceTarget.Ascend false
        ParallelMode.STAND_ALONE wSt
      = Except.ok BuiltNet.frameworkAmp :=
  (dpModel_build_train_network_routing wEnv DeviceTarget.Ascend false
    ParallelMode.STAND_ALONE wSt 1 1 1).2.1 rfl rfl

/-- C9: whenever the loss-scale manager supplies a non-None update cell
while the device target is CPU and `enable_ge` is off,
`amp_build_train_network` raises `ValueError` and no training cell is
constructed. -/
theorem ampBuild_cpu_update_cell_raises
    (env : DpEnv) (dev : DeviceTarget) (ge : Bool) (p : ParallelMode)
    (mb : ℕ) (nc : ℚ) (mech : GradTuple → GradTuple) (v uc : ℚ)
    (hdev : dev = DeviceTarget.CPU) (hge : ge = false) :
    DPModel.amp_build_train_network env dev ge p mb nc mech
        (some { lossScaleVal := v, updateCell := some uc })
      = Except.error "Only loss_scale_manager=None and FixedLossScaleManager(drop_overflow_update=False) are supported in current version" := by
  subst hdev hge
  rfl

/-- C9 witness at a concrete CPU configuration. -/
theorem ampBuild_cpu_update_cell_raises_witness :
    DPModel.amp_build_train_network wEnv DeviceTarget.CPU false
        ParallelMode.STAND_ALONE 2 1 wMech
        (some { lossScaleVal := 8, updateCell := some 8 })
      = Except.error "Only loss_scale_manager=None and FixedLossScaleManager(drop_overflow_update=False) are supported in current version" :=
  ampBuild_cpu_update_cell_raises wEnv DeviceTarget.CPU false
    ParallelMode.STAND_ALONE 2 1 wMech 8 8 rfl rfl
